import Mathlib

/-!
Verification of the ID-SMART student ID card generator.

The development shallowly embeds the two server variants present in the
repository: `nodejs_id_card_app.js` (disk-backed multer storage, local
output folder) and the Cloudinary-backed variant (memory storage, remote
uploads).  Strings are modelled by Lean strings (ASCII behaviour of the
JavaScript string methods), numeric point sizes and canvas coordinates by
rationals, and the fallible external calls (template presence, image
loading, remote uploads) by an explicit environment record.  Each handler
returns, besides its response, the list of side effects (disk writes,
upload calls, card renders) it performed, in order.
-/

namespace IDSmart

/-! ## JavaScript string primitives (ASCII model) -/

/-- Characters removed by the JavaScript `String.prototype.trim`
(ASCII whitespace). -/
def jsWhitespace (c : Char) : Bool :=
  c == ' ' || c == '\t' || c == '\n' || c == '\r' || c == '\x0b' || c == '\x0c'

/-- Model of `s.trim()`: drop whitespace from both ends. -/
def jsTrim (s : String) : String :=
  ⟨((s.data.dropWhile jsWhitespace).reverse.dropWhile jsWhitespace).reverse⟩

/-- The ASCII lowercase/uppercase letter pairs. -/
def casePairs : List (Char × Char) :=
  [('a', 'A'), ('b', 'B'), ('c', 'C'), ('d', 'D'), ('e', 'E'), ('f', 'F'),
   ('g', 'G'), ('h', 'H'), ('i', 'I'), ('j', 'J'), ('k', 'K'), ('l', 'L'),
   ('m', 'M'), ('n', 'N'), ('o', 'O'), ('p', 'P'), ('q', 'Q'), ('r', 'R'),
   ('s', 'S'), ('t', 'T'), ('u', 'U'), ('v', 'V'), ('w', 'W'), ('x', 'X'),
   ('y', 'Y'), ('z', 'Z')]

/-- ASCII model of the uppercase mapping used by `toUpperCase()`. -/
def jsCharToUpper (c : Char) : Char :=
  match casePairs.find? (fun p => p.1 == c) with
  | some p => p.2
  | none => c

/-- ASCII model of the lowercase mapping used by `toLowerCase()`. -/
def jsCharToLower (c : Char) : Char :=
  match casePairs.find? (fun p => p.2 == c) with
  | some p => p.1
  | none => c

/-- Model of `s.toUpperCase()`. -/
def jsToUpperCase (s : String) : String := ⟨s.data.map jsCharToUpper⟩

/-- Model of `s.toLowerCase()`. -/
def jsToLowerCase (s : String) : String := ⟨s.data.map jsCharToLower⟩

/-! ## Form validation (`validateFormInput`) -/

/-- The character class `[-A-Za-z0-9 ._/]` (letters, digits, space, dot,
underscore, slash, hyphen) of the registration-number regular expression
in `validateFormInput`. -/
def allowedRegChar (c : Char) : Bool :=
  c.isAlpha || c.isDigit || c == ' ' || c == '.' || c == '_' || c == '/' || c == '-'

/-- Model of the anchored one-or-more regular-expression test on the
registration number: `s` is non-empty and every character lies in the
class. -/
def regTest (s : String) : Bool :=
  !s.data.isEmpty && s.data.all allowedRegChar

/-- The six form fields of the request body; a missing field is `none`. -/
structure FormData where
  name : Option String
  reg : Option String
  dept : Option String
  faculty : Option String
  gender : Option String
  expiry : Option String
  deriving DecidableEq, Repr

/-- Model of the per-field check `!data[field] || !data[field].trim()`
(negated): the field is present and non-empty after trimming. -/
def requiredOk (f : Option String) : Bool :=
  match f with
  | none => false
  | some s => !(jsTrim s == "")

/-- Model of `validateFormInput`: the checks in source order, returning
the first error. -/
def validateFormInput (d : FormData) : Except String Unit :=
  if !requiredOk d.name then .error "Missing field: name"
  else if !requiredOk d.reg then .error "Missing field: reg"
  else if !requiredOk d.dept then .error "Missing field: dept"
  else if !requiredOk d.faculty then .error "Missing field: faculty"
  else if !requiredOk d.gender then .error "Missing field: gender"
  else if !requiredOk d.expiry then .error "Missing field: expiry"
  else if (d.name.getD "").length > 100 then .error "Name too long (max 100 characters)"
  else if (d.reg.getD "").length > 50 then .error "Registration number too long (max 50 characters)"
  else if !regTest (d.reg.getD "") then .error "Invalid characters in registration number"
  else .ok ()

/-- A request body has a missing (or empty-after-trim) required field. -/
def hasMissingRequired (d : FormData) : Bool :=
  !(requiredOk d.name && requiredOk d.reg && requiredOk d.dept &&
    requiredOk d.faculty && requiredOk d.gender && requiredOk d.expiry)

/-! ## Geometry constants and point-to-pixel conversion -/

def DPI : ℚ := 300

def CM_TO_PX : ℚ := 300 / (254 / 100)

def CARD_WIDTH : ℕ := 1012

def CARD_HEIGHT : ℕ := 638

/-- Model of JavaScript `Math.round`: round half towards positive
infinity. -/
def jsRound (x : ℚ) : ℤ := ⌊x + 1 / 2⌋

/-- Model of `ptToPx`: `Math.max(1, Math.round(pt * DPI / 72.0))`. -/
def ptToPx (pt : ℚ) : ℤ := max 1 (jsRound (pt * DPI / 72))

/-! ## QR code generation (`generateQRCode`) -/

/-- The QR payload text built by `generateQRCode`. -/
def qrText (name reg dept : String) : String :=
  "Name: " ++ name ++ "\n" ++ "Reg: " ++ reg ++ "\n" ++ "Dept: " ++ dept

/-- The options record passed to the QR library; no error-correction
level is set, so the library default applies. -/
structure QROptions where
  width : ℕ
  margin : ℕ
  errorCorrectionLevel : Option String
  deriving DecidableEq, Repr

/-- Model of `generateQRCode`: the encoded payload string together with
the options handed to the QR library. -/
def generateQRCode (name reg dept : String) : String × QROptions :=
  (qrText name reg dept, { width := 150, margin := 1, errorCorrectionLevel := none })

/-! ## Filename sanitisation -/

/-- The character class kept by the sanitiser (the case-insensitive
complement class replaces everything else by an underscore): letters,
digits, underscore, hyphen. -/
def allowedFileChar (c : Char) : Bool :=
  c.isAlpha || c.isDigit || c == '_' || c == '-'

/-- Model of the per-character global replacement building `safeReg`:
every character outside the class becomes an underscore. -/
def sanitizeReg (reg : String) : String :=
  ⟨reg.data.map (fun c => if allowedFileChar c then c else '_')⟩

/-! ## `path.extname` and the multer file filter -/

/-- Keep only the characters after the last slash. -/
def afterLastSlash (l : List Char) : List Char :=
  l.foldl (fun acc c => if c == '/' then [] else acc ++ [c]) []

/-- Index of the last dot of a list of characters, if any. -/
def lastDotIdx (l : List Char) : Option ℕ :=
  ((l.enum.filter (fun p => p.2 == '.')).map (fun p => p.1)).getLast?

/-- Model of `path.extname` (posix): the suffix of the basename starting
at its last dot, empty when there is no dot or the only dot starts the
basename. -/
def extname (s : String) : String :=
  let b := afterLastSlash s.data
  match lastDotIdx b with
  | none => ""
  | some 0 => ""
  | some i => ⟨b.drop i⟩

/-- Substring prefix test on character lists. -/
def listHasPrefix : List Char → List Char → Bool
  | [], _ => true
  | _ :: _, [] => false
  | p :: ps, c :: cs => p == c && listHasPrefix ps cs

/-- Substring containment test on character lists (model of an
unanchored regular-expression alternative member). -/
def listHasInfix (pat : List Char) : List Char → Bool
  | [] => pat.isEmpty
  | c :: cs => listHasPrefix pat (c :: cs) || listHasInfix pat cs

/-- Model of the unanchored test of the alternation regular expression
over jpeg, jpg, png, gif: the string contains one of the four tokens as
a substring. -/
def allowedTypesTest (s : String) : Bool :=
  listHasInfix "jpeg".data s.data || listHasInfix "jpg".data s.data ||
  listHasInfix "png".data s.data || listHasInfix "gif".data s.data

/-- The multipart photo part: original filename, declared MIME type and
byte size. -/
structure PhotoFile where
  originalname : String
  mimetype : String
  size : ℕ
  deriving DecidableEq, Repr

def MAX_FILE_SIZE : ℕ := 16 * 1024 * 1024

/-- Model of the multer `fileFilter` callback: the unanchored allow-list
test on the lowercased extension and on the declared MIME type. -/
def fileFilterOk (f : PhotoFile) : Bool :=
  allowedTypesTest (jsToLowerCase (extname f.originalname)) && allowedTypesTest f.mimetype

/-- A photo part clears the multer middleware: it passes the file filter
and the 16MB size limit. -/
def photoAccepted (f : PhotoFile) : Bool :=
  fileFilterOk f && f.size ≤ MAX_FILE_SIZE

/-! ## Canvas model -/

/-- One drawing operation recorded on a canvas context, in source order:
a full-rectangle image draw or a text run with its font string. -/
inductive DrawOp where
  | drawImage (src : String) (x y w h : ℚ)
  | fillText (text : String) (x y : ℚ) (font : String)
  deriving DecidableEq, Repr

/-- A canvas: its creation size and the recorded operations. -/
structure Canvas where
  width : ℕ
  height : ℕ
  ops : List DrawOp
  deriving DecidableEq, Repr

/-- A serialized PNG byte buffer, modelled by the canvas it encodes. -/
structure PngBuffer where
  canvas : Canvas
  deriving DecidableEq, Repr

/-- The CSS font string assigned before each text run. -/
def fontSpec (px : ℤ) (fontLoaded : Bool) : String :=
  toString px ++ "px " ++ (if fontLoaded then "ArialBold" else "Arial, sans-serif")

/-- The six validated form fields consumed by `generateIDCard`. -/
structure CardFields where
  name : String
  reg : String
  dept : String
  faculty : String
  gender : String
  expiry : String
  deriving DecidableEq, Repr

/-- Destructuring of the request body into the six fields (called only
after validation, when all six are present). -/
def FormData.fields (d : FormData) : CardFields :=
  ⟨d.name.getD "", d.reg.getD "", d.dept.getD "", d.faculty.getD "",
   d.gender.getD "", d.expiry.getD ""⟩

/-- The front card canvas: template, QR code and photo drawn at the
fixed rectangles. -/
def frontCardCanvas (photoSrc : String) : Canvas :=
  { width := CARD_WIDTH, height := CARD_HEIGHT,
    ops := [
      .drawImage "front_template.png" 0 0 (CARD_WIDTH : ℚ) (CARD_HEIGHT : ℚ),
      .drawImage "qr" 470 419 150 150,
      .drawImage photoSrc 640 280 280 280] }

/-- The back card canvas: template then the eight text runs at their
centimetre-derived baselines, in source order. -/
def backCardCanvas (f : CardFields) (fontLoaded : Bool) : Canvas :=
  { width := CARD_WIDTH, height := CARD_HEIGHT,
    ops := [
      .drawImage "back_template.png" 0 0 (CARD_WIDTH : ℚ) (CARD_HEIGHT : ℚ),
      .fillText (jsToUpperCase f.name) (0.74 * CM_TO_PX)
        (0.60 * CM_TO_PX + (ptToPx 7 : ℚ)) (fontSpec (ptToPx 7) fontLoaded),
      .fillText f.faculty (1.81 * CM_TO_PX)
        (1.03 * CM_TO_PX + (ptToPx 4.319 : ℚ)) (fontSpec (ptToPx 4.319) fontLoaded),
      .fillText f.dept (1.81 * CM_TO_PX)
        (1.38 * CM_TO_PX + (ptToPx 4.319 : ℚ)) (fontSpec (ptToPx 4.319) fontLoaded),
      .fillText f.reg (1.81 * CM_TO_PX)
        (1.73 * CM_TO_PX + (ptToPx 4.319 : ℚ)) (fontSpec (ptToPx 4.319) fontLoaded),
      .fillText f.gender (1.81 * CM_TO_PX)
        (2.08 * CM_TO_PX + (ptToPx 4.319 : ℚ)) (fontSpec (ptToPx 4.319) fontLoaded),
      .fillText "EXPIRY" (0.74 * CM_TO_PX)
        (3.87 * CM_TO_PX + (ptToPx 6 : ℚ)) (fontSpec (ptToPx 6) fontLoaded),
      .fillText f.expiry (0.74 * CM_TO_PX)
        (4.17 * CM_TO_PX + (ptToPx 6 : ℚ)) (fontSpec (ptToPx 6) fontLoaded)] }

/-! ## Side effects and external environment -/

/-- An observable side effect of a request, in the order it happens:
a local disk write, a call to the storage provider (with whether it
persisted), or a completed card render. -/
inductive Event where
  | diskWrite (path : String)
  | uploadCall (target : String) (ok : Bool)
  | renderCard (side : String)
  deriving DecidableEq, Repr

/-- Outcomes of the external calls a request may perform: template
presence on disk, success of the QR encoder and of the two canvas
renders, and the results of the three storage-provider uploads. -/
structure Env where
  frontTemplateExists : Bool
  backTemplateExists : Bool
  qrOk : Bool
  frontRenderOk : Bool
  backRenderOk : Bool
  photoUpload : Except String String
  frontUpload : Except String String
  backUpload : Except String String
  fontLoaded : Bool
  deriving Repr

def exceptIsOk (e : Except String String) : Bool :=
  match e with
  | .ok _ => true
  | .error _ => false

/-! ## Cloudinary variant: `generateIDCard` and the generate route -/

def generatedFolder : String := "futo-id-cards/generated"

def uploadsFolder : String := "futo-id-cards/uploads"

def frontPublicId (safeReg : String) : String := "futo_" ++ safeReg ++ "_front"

def backPublicId (safeReg : String) : String := "futo_" ++ safeReg ++ "_back"

def frontUploadTarget (safeReg : String) : String :=
  generatedFolder ++ "/" ++ frontPublicId safeReg

def backUploadTarget (safeReg : String) : String :=
  generatedFolder ++ "/" ++ backPublicId safeReg

/-- The success value of the Cloudinary `generateIDCard`: the two PNG
buffers and the two secure URLs returned by the uploads. -/
structure CardOutput where
  frontBuffer : PngBuffer
  backBuffer : PngBuffer
  frontUrl : String
  backUrl : String
  deriving DecidableEq, Repr

/-- Model of the Cloudinary `generateIDCard`: QR buffer, template
checks, front render, front upload, back render, back upload, in source
order, together with the side effects performed. -/
def generateIDCard (f : CardFields) (photoUrl : String) (env : Env) :
    Except String CardOutput × List Event :=
  let safeReg := sanitizeReg f.reg
  if !env.qrOk then (.error "QR generation failed", [])
  else if !env.frontTemplateExists then
    (.error "Front template not found at: static/front_template.png", [])
  else if !env.backTemplateExists then
    (.error "Back template not found at: static/back_template.png", [])
  else if !env.frontRenderOk then (.error "Front render failed", [])
  else
    let frontEvents := [Event.renderCard "front",
      Event.uploadCall (frontUploadTarget safeReg) (exceptIsOk env.frontUpload)]
    match env.frontUpload with
    | .error e => (.error e, frontEvents)
    | .ok frontUrl =>
      if !env.backRenderOk then (.error "Back render failed", frontEvents)
      else
        let events := frontEvents ++ [Event.renderCard "back",
          Event.uploadCall (backUploadTarget safeReg) (exceptIsOk env.backUpload)]
        match env.backUpload with
        | .error e => (.error e, events)
        | .ok backUrl =>
          (.ok ⟨⟨frontCardCanvas photoUrl⟩, ⟨backCardCanvas f env.fontLoaded⟩,
            frontUrl, backUrl⟩, events)

/-- An HTTP response: status code and body. -/
structure Response where
  status : ℕ
  body : String
  deriving DecidableEq, Repr

/-- The body of the Cloudinary generate route, after the multer
middleware: validation, photo presence, photo upload, card
generation. -/
def handlerBody (form : FormData) (file : Option PhotoFile) (env : Env) :
    Response × List Event :=
  match validateFormInput form with
  | .error e => (⟨400, e⟩, [])
  | .ok _ =>
    match file with
    | none => (⟨400, "No photo uploaded"⟩, [])
    | some _ =>
      let photoEvent := Event.uploadCall uploadsFolder (exceptIsOk env.photoUpload)
      match env.photoUpload with
      | .error e => (⟨500, "Error: " ++ e⟩, [photoEvent])
      | .ok photoUrl =>
        match generateIDCard (FormData.fields form) photoUrl env with
        | (.error e, evs) => (⟨500, "Error: " ++ e⟩, photoEvent :: evs)
        | (.ok out, evs) =>
          (⟨200, "success " ++ out.frontUrl ++ " " ++ out.backUrl⟩, photoEvent :: evs)

/-- The whole Cloudinary generate route: multer memory storage (file
filter and size limit, no disk write) then the handler body. -/
def generatePipeline (form : FormData) (file : Option PhotoFile) (env : Env) :
    Response × List Event :=
  match file with
  | none => handlerBody form none env
  | some f =>
    if !fileFilterOk f then
      (⟨500, "Only image files (PNG, JPG, JPEG, GIF) are allowed"⟩, [])
    else if f.size > MAX_FILE_SIZE then (⟨413, "File too large (max 16MB)"⟩, [])
    else handlerBody form (some f) env

/-! ## Disk variant: multer disk storage, local output folder -/

def UPLOAD_FOLDER : String := "static/uploads"

def OUTPUT_FOLDER : String := "static/id_cards"

/-- Outcomes of the external calls of the disk variant. -/
structure EnvDisk where
  frontTemplateExists : Bool
  backTemplateExists : Bool
  qrOk : Bool
  frontRenderOk : Bool
  backRenderOk : Bool
  fontLoaded : Bool
  deriving DecidableEq, Repr

/-- The success value of the disk `generateIDCard`: buffers and the two
output paths. -/
structure DiskOutput where
  frontBuffer : PngBuffer
  backBuffer : PngBuffer
  frontOutput : String
  backOutput : String
  deriving DecidableEq, Repr

def qrFilePath (safeReg : String) : String :=
  OUTPUT_FOLDER ++ "/futo_" ++ safeReg ++ "_qr.png"

def frontFilePath (safeReg : String) : String :=
  OUTPUT_FOLDER ++ "/futo_" ++ safeReg ++ "_front.png"

def backFilePath (safeReg : String) : String :=
  OUTPUT_FOLDER ++ "/futo_" ++ safeReg ++ "_back.png"

/-- Model of the disk `generateIDCard`: the QR code is written to the
output folder first, then the templates are checked, then the two cards
are rendered and written. -/
def generateIDCardDisk (f : CardFields) (photoPath : String) (env : EnvDisk) :
    Except String DiskOutput × List Event :=
  let safeReg := sanitizeReg f.reg
  if !env.qrOk then (.error "QR generation failed", [])
  else
    let ev0 := [Event.diskWrite (qrFilePath safeReg)]
    if !env.frontTemplateExists then
      (.error "Front template not found at: static/front_template.png", ev0)
    else if !env.backTemplateExists then
      (.error "Back template not found at: static/back_template.png", ev0)
    else if !env.frontRenderOk then (.error "Front render failed", ev0)
    else
      let ev1 := ev0 ++ [Event.renderCard "front",
        Event.diskWrite (frontFilePath safeReg)]
      if !env.backRenderOk then (.error "Back render failed", ev1)
      else
        (.ok ⟨⟨frontCardCanvas photoPath⟩, ⟨backCardCanvas f env.fontLoaded⟩,
          frontFilePath safeReg, backFilePath safeReg⟩,
         ev1 ++ [Event.renderCard "back", Event.diskWrite (backFilePath safeReg)])

/-- Fallback of the multer filename callback: the reg field, or the
string temp when it is absent or empty. -/
def regOrTemp (o : Option String) : String :=
  match o with
  | none => "temp"
  | some s => if s == "" then "temp" else s

/-- The path the multer disk storage writes the uploaded photo to. -/
def uploadedPhotoPath (form : FormData) (f : PhotoFile) : String :=
  UPLOAD_FOLDER ++ "/" ++ sanitizeReg (regOrTemp form.reg) ++ "_photo" ++
    extname f.originalname

/-- The body of the disk generate route, after the multer middleware. -/
def handlerBodyDisk (form : FormData) (photoPath : Option String) (env : EnvDisk) :
    Response × List Event :=
  match validateFormInput form with
  | .error e => (⟨400, e⟩, [])
  | .ok _ =>
    match photoPath with
    | none => (⟨400, "No photo uploaded"⟩, [])
    | some p =>
      match generateIDCardDisk (FormData.fields form) p env with
      | (.error e, evs) => (⟨500, "Error: " ++ e⟩, evs)
      | (.ok out, evs) => (⟨200, out.frontOutput⟩, evs)

/-- The whole disk generate route: the multer disk storage writes the
accepted photo to the upload folder before the handler body runs. -/
def generatePipelineDisk (form : FormData) (file : Option PhotoFile) (env : EnvDisk) :
    Response × List Event :=
  match file with
  | none => handlerBodyDisk form none env
  | some f =>
    if !fileFilterOk f then
      (⟨500, "Only image files (PNG, JPG, JPEG, GIF) are allowed"⟩, [])
    else if f.size > MAX_FILE_SIZE then (⟨413, "File too large (max 16MB)"⟩, [])
    else
      let p := uploadedPhotoPath form f
      let r := handlerBodyDisk form (some p) env
      (r.1, Event.diskWrite p :: r.2)

/-- The path looked up by the download-back route for a reg parameter. -/
def downloadBackPath (regParam : String) : String :=
  OUTPUT_FOLDER ++ "/" ++ ("futo_" ++ sanitizeReg regParam ++ "_back.png")

/-- A photo part (or its absence) clears the multer middleware. -/
def multerPasses (file : Option PhotoFile) : Bool :=
  match file with
  | none => true
  | some f => photoAccepted f

/-! ## Helper lemmas -/

theorem jsCharToUpper_idem (c : Char) :
    jsCharToUpper (jsCharToUpper c) = jsCharToUpper c := by
  have key : ∀ q ∈ casePairs, casePairs.find? (fun r => r.1 == q.2) = none := by decide
  cases h : casePairs.find? (fun p => p.1 == c) with
  | none =>
      have hc : jsCharToUpper c = c := by simp [jsCharToUpper, h]
      rw [hc, hc]
  | some p =>
      have hc : jsCharToUpper c = p.2 := by simp [jsCharToUpper, h]
      rw [hc]
      have hmem : p ∈ casePairs := List.mem_of_find?_eq_some h
      simp [jsCharToUpper, key p hmem]

theorem jsToUpperCase_idem (s : String) :
    jsToUpperCase (jsToUpperCase s) = jsToUpperCase s := by
  show String.mk ((s.data.map jsCharToUpper).map jsCharToUpper) =
    String.mk (s.data.map jsCharToUpper)
  rw [List.map_map]
  exact congrArg String.mk (List.map_congr_left (fun c _ => jsCharToUpper_idem c))

theorem requiredOk_ne_nil (o : Option String) (h : requiredOk o = true) :
    (o.getD "").data ≠ [] := by
  cases o with
  | none => simp [requiredOk] at h
  | some s =>
      intro hnil
      simp only [Option.getD] at hnil
      have hs : jsTrim s = "" := by
        unfold jsTrim
        rw [hnil]
        decide
      simp [requiredOk, hs] at h

/-! ## Claim C3: QR payload -/

/-- C3: for every (name, reg, dept) triple, the QR payload string built
by `generateQRCode` is exactly the three labelled lines, rendered at
width 150 with margin 1 and no explicit error-correction level (so the
library default applies); and the payload is deterministic: equal
triples give equal payload strings. -/
theorem generateQRCode_payload (n r d n2 r2 d2 : String)
    (h : n = n2 ∧ r = r2 ∧ d = d2) :
    (generateQRCode n r d).1 =
      "Name: " ++ n ++ "\n" ++ "Reg: " ++ r ++ "\n" ++ "Dept: " ++ d ∧
    (generateQRCode n r d).2.width = 150 ∧
    (generateQRCode n r d).2.margin = 1 ∧
    (generateQRCode n r d).2.errorCorrectionLevel = none ∧
    (generateQRCode n r d).1 = (generateQRCode n2 r2 d2).1 := by
  obtain ⟨h1, h2, h3⟩ := h
  subst h1
  subst h2
  subst h3
  exact ⟨rfl, rfl, rfl, rfl, rfl⟩

/-- Witness for C3 at a concrete triple. -/
theorem generateQRCode_payload_witness :
    (generateQRCode "Jane Doe" "2020/1234567" "Computer Science").1 =
      "Name: " ++ "Jane Doe" ++ "\n" ++ "Reg: " ++ "2020/1234567" ++ "\n" ++
        "Dept: " ++ "Computer Science" ∧
    (generateQRCode "Jane Doe" "2020/1234567" "Computer Science").2.width = 150 ∧
    (generateQRCode "Jane Doe" "2020/1234567" "Computer Science").2.margin = 1 ∧
    (generateQRCode "Jane Doe" "2020/1234567" "Computer Science").2.errorCorrectionLevel = none ∧
    (generateQRCode "Jane Doe" "2020/1234567" "Computer Science").1 =
      (generateQRCode "Jane Doe" "2020/1234567" "Computer Science").1 :=
  generateQRCode_payload "Jane Doe" "2020/1234567" "Computer Science"
    "Jane Doe" "2020/1234567" "Computer Science" ⟨rfl, rfl, rfl⟩

/-! ## Claim C7: point-to-pixel conversion -/

/-- C7: `ptToPx` equals the clamped rounding formula, is monotone
non-decreasing, and never returns less than 1 for a positive point
size. -/
theorem ptToPx_spec (p q : ℚ) (hpq : p ≤ q) (hp : 0 < p) :
    ptToPx p = max 1 (jsRound (p * 300 / 72)) ∧
    ptToPx p ≤ ptToPx q ∧
    1 ≤ ptToPx p := by
  refine ⟨rfl, ?_, le_max_left 1 _⟩
  have h1 : p * DPI / 72 + 1 / 2 ≤ q * DPI / 72 + 1 / 2 := by
    simp only [DPI]
    linarith
  have h2 : jsRound (p * DPI / 72) ≤ jsRound (q * DPI / 72) := Int.floor_le_floor h1
  exact max_le_max (le_refl 1) h2

/-- Witness for C7 at concrete point sizes 7 and 8. -/
theorem ptToPx_spec_witness :
    ptToPx 7 = max 1 (jsRound (7 * 300 / 72)) ∧
    ptToPx 7 ≤ ptToPx 8 ∧
    1 ≤ ptToPx 7 :=
  ptToPx_spec 7 8 (by norm_num) (by norm_num)

/-! ## Claim C9: uppercased name on the back card -/

/-- C9: the name text run recorded on the back card is the uppercased
input name, and uppercasing is idempotent. -/
theorem backCard_name_uppercased (f : CardFields) (fontLoaded : Bool) :
    ((backCardCanvas f fontLoaded).ops)[1]? =
      some (.fillText (jsToUpperCase f.name) (0.74 * CM_TO_PX)
        (0.60 * CM_TO_PX + (ptToPx 7 : ℚ)) (fontSpec (ptToPx 7) fontLoaded)) ∧
    jsToUpperCase (jsToUpperCase f.name) = jsToUpperCase f.name :=
  ⟨rfl, jsToUpperCase_idem f.name⟩

/-! ## Claim C2: validateFormInput characterisation -/

/-- C2: `validateFormInput` accepts exactly when all six fields are
present and non-empty after trimming, the name has at most 100
characters, the registration number has at most 50 characters and
consists only of characters in the allowed class; any other form is
rejected with a validation error. -/
theorem validateFormInput_iff (d : FormData) :
    (validateFormInput d = .ok () ↔
      (requiredOk d.name = true ∧ requiredOk d.reg = true ∧
       requiredOk d.dept = true ∧ requiredOk d.faculty = true ∧
       requiredOk d.gender = true ∧ requiredOk d.expiry = true ∧
       (d.name.getD "").length ≤ 100 ∧ (d.reg.getD "").length ≤ 50 ∧
       ∀ c ∈ (d.reg.getD "").data, allowedRegChar c = true)) ∧
    (validateFormInput d = .ok () ∨ ∃ e, validateFormInput d = .error e) := by
  refine ⟨?_, ?_⟩
  case refine_2 =>
    cases h : validateFormInput d with
    | ok u =>
        cases u
        exact Or.inl rfl
    | error e => exact Or.inr ⟨e, rfl⟩
  constructor
  · intro h
    unfold validateFormInput at h
    split_ifs at h with h1 h2 h3 h4 h5 h6 h7 h8 h9 <;>
      try exact Except.noConfusion h
    refine ⟨?_, ?_, ?_, ?_, ?_, ?_, ?_, ?_, ?_⟩
    · simpa using h1
    · simpa using h2
    · simpa using h3
    · simpa using h4
    · simpa using h5
    · simpa using h6
    · omega
    · omega
    · have h9' : regTest (d.reg.getD "") = true := by simpa using h9
      unfold regTest at h9'
      rw [Bool.and_eq_true] at h9'
      exact List.all_eq_true.1 h9'.2
  · rintro ⟨r1, r2, r3, r4, r5, r6, hl1, hl2, hall⟩
    have hne : (d.reg.getD "").data ≠ [] := requiredOk_ne_nil d.reg r2
    have hreg : regTest (d.reg.getD "") = true := by
      unfold regTest
      rw [Bool.and_eq_true]
      constructor
      · cases hd : (d.reg.getD "").data with
        | nil => exact absurd hd hne
        | cons a l => rfl
      · exact List.all_eq_true.2 hall
    unfold validateFormInput
    simp [r1, r2, r3, r4, r5, r6, hreg, Nat.not_lt.2 hl1, Nat.not_lt.2 hl2]

/-! ## Claim C10: sanitised names cannot escape the output folder -/

/-- No two consecutive dots anywhere in the character list. -/
def noDotDot : List Char → Bool
  | [] => true
  | [_] => true
  | a :: b :: rest => !(a == '.' && b == '.') && noDotDot (b :: rest)

/-- A filename that resolves directly inside the folder it is joined
to: non-empty, free of path separators, and without a double dot. -/
def safeFileName (s : String) : Bool :=
  !s.data.isEmpty && s.data.all (fun c => !(c == '/') && !(c == '\\')) &&
    noDotDot s.data

theorem noDotDot_cons (a : Char) (l : List Char) (ha : a ≠ '.') :
    noDotDot (a :: l) = noDotDot l := by
  cases l with
  | nil => rfl
  | cons b rest =>
      have hb : (a == '.') = false := by
        simp [ha]
      simp [noDotDot, hb]

theorem noDotDot_append (xs ys : List Char) (hxs : ∀ c ∈ xs, c ≠ '.') :
    noDotDot (xs ++ ys) = noDotDot ys := by
  induction xs with
  | nil => rfl
  | cons a xs ih =>
      rw [List.cons_append, noDotDot_cons a _ (hxs a (List.mem_cons_self a xs))]
      exact ih (fun c hc => hxs c (List.mem_cons_of_mem a hc))

theorem sanitizeReg_allowed (reg : String) :
    ∀ c ∈ (sanitizeReg reg).data, allowedFileChar c = true := by
  intro c hc
  simp only [sanitizeReg] at hc
  obtain ⟨a, _, rfl⟩ := List.mem_map.1 hc
  by_cases h : allowedFileChar a = true
  · simpa [h]
  · have h' : allowedFileChar a = false := by
      cases ha : allowedFileChar a with
      | false => rfl
      | true => exact absurd ha h
    simp [h']
    decide

theorem allowedFileChar_ne (c : Char) (h : allowedFileChar c = true) :
    c ≠ '/' ∧ c ≠ '\\' ∧ c ≠ '.' := by
  refine ⟨?_, ?_, ?_⟩ <;> intro hc <;> rw [hc] at h <;> exact absurd h (by decide)

theorem safeFileName_futo (mid suf : String)
    (hmid : ∀ c ∈ mid.data, allowedFileChar c = true)
    (hsuf : suf.data.all (fun c => !(c == '/') && !(c == '\\')) = true)
    (hdd : noDotDot suf.data = true) :
    safeFileName ("futo_" ++ mid ++ suf) = true := by
  unfold safeFileName
  rw [String.data_append, String.data_append]
  have hpre : "futo_".data = ['f', 'u', 't', 'o', '_'] := rfl
  have hnodot : ∀ c ∈ "futo_".data ++ mid.data, c ≠ '.' := by
    intro c hc
    rcases List.mem_append.1 hc with h | h
    · rw [hpre] at h
      have hall : ∀ a ∈ (['f', 'u', 't', 'o', '_'] : List Char), a ≠ '.' := by decide
      exact hall c h
    · exact (allowedFileChar_ne c (hmid c h)).2.2
  rw [Bool.and_eq_true, Bool.and_eq_true]
  refine ⟨⟨?_, ?_⟩, ?_⟩
  · rw [hpre]
    rfl
  · rw [List.all_append, List.all_append]
    have h1 : "futo_".data.all (fun c => !(c == '/') && !(c == '\\')) = true := by
      rw [hpre]
      rfl
    have h2 : mid.data.all (fun c => !(c == '/') && !(c == '\\')) = true := by
      refine List.all_eq_true.2 (fun c hc => ?_)
      have := allowedFileChar_ne c (hmid c hc)
      simp [this.1, this.2.1]
    rw [h1, h2, hsuf]
    rfl
  · rw [noDotDot_append _ _ hnodot, hdd]

theorem filePath_split (s suf : String) :
    OUTPUT_FOLDER ++ "/futo_" ++ s ++ suf =
      OUTPUT_FOLDER ++ "/" ++ ("futo_" ++ s ++ suf) := by
  apply String.ext
  simp [List.append_assoc]

/-- C10: every character of the sanitised registration identifier lies
in the allowed filename class, and every filename and public id built
from it (QR file, front and back card files, upload public ids, and the
file looked up by the download-back route) is a safe name directly
inside its folder. -/
theorem sanitized_names_stay_in_folder (reg : String) :
    (∀ c ∈ (sanitizeReg reg).data, allowedFileChar c = true) ∧
    safeFileName ("futo_" ++ sanitizeReg reg ++ "_qr.png") = true ∧
    safeFileName ("futo_" ++ sanitizeReg reg ++ "_front.png") = true ∧
    safeFileName ("futo_" ++ sanitizeReg reg ++ "_back.png") = true ∧
    safeFileName (frontPublicId (sanitizeReg reg)) = true ∧
    safeFileName (backPublicId (sanitizeReg reg)) = true ∧
    qrFilePath (sanitizeReg reg) =
      OUTPUT_FOLDER ++ "/" ++ ("futo_" ++ sanitizeReg reg ++ "_qr.png") ∧
    frontFilePath (sanitizeReg reg) =
      OUTPUT_FOLDER ++ "/" ++ ("futo_" ++ sanitizeReg reg ++ "_front.png") ∧
    backFilePath (sanitizeReg reg) =
      OUTPUT_FOLDER ++ "/" ++ ("futo_" ++ sanitizeReg reg ++ "_back.png") ∧
    downloadBackPath reg =
      OUTPUT_FOLDER ++ "/" ++ ("futo_" ++ sanitizeReg reg ++ "_back.png") := by
  have hs := sanitizeReg_allowed reg
  refine ⟨hs, ?_, ?_, ?_, ?_, ?_, ?_, ?_, ?_, ?_⟩
  · exact safeFileName_futo _ "_qr.png" hs (by decide) (by decide)
  · exact safeFileName_futo _ "_front.png" hs (by decide) (by decide)
  · exact safeFileName_futo _ "_back.png" hs (by decide) (by decide)
  · exact safeFileName_futo _ "_front" hs (by decide) (by decide)
  · exact safeFileName_futo _ "_back" hs (by decide) (by decide)
  · exact filePath_split (sanitizeReg reg) "_qr.png"
  · exact filePath_split (sanitizeReg reg) "_front.png"
  · exact filePath_split (sanitizeReg reg) "_back.png"
  · rfl

/-! ## Claim C1: validation precedes side effects -/

theorem validateFormInput_error_of_missing (d : FormData)
    (h : hasMissingRequired d = true) :
    ∃ e, validateFormInput d = .error e := by
  cases h1 : requiredOk d.name with
  | false => exact ⟨"Missing field: name", by simp [validateFormInput, h1]⟩
  | true =>
  cases h2 : requiredOk d.reg with
  | false => exact ⟨"Missing field: reg", by simp [validateFormInput, h1, h2]⟩
  | true =>
  cases h3 : requiredOk d.dept with
  | false => exact ⟨"Missing field: dept", by simp [validateFormInput, h1, h2, h3]⟩
  | true =>
  cases h4 : requiredOk d.faculty with
  | false => exact ⟨"Missing field: faculty", by simp [validateFormInput, h1, h2, h3, h4]⟩
  | true =>
  cases h5 : requiredOk d.gender with
  | false => exact ⟨"Missing field: gender", by simp [validateFormInput, h1, h2, h3, h4, h5]⟩
  | true =>
  cases h6 : requiredOk d.expiry with
  | false => exact ⟨"Missing field: expiry", by simp [validateFormInput, h1, h2, h3, h4, h5, h6]⟩
  | true =>
      exfalso
      simp [hasMissingRequired, h1, h2, h3, h4, h5, h6] at h

/-- C1 (amended): for every request with a required field missing or
empty after trimming whose photo part clears the upload middleware, both
generate routes answer 400 before any render or storage-provider call;
in the Cloudinary variant no side effect at all occurs, while in the
disk variant the multer disk storage has already written the uploaded
photo to the upload folder before validation runs (and nothing else
happens). -/
theorem validation_rejects_before_side_effects (form : FormData)
    (file : Option PhotoFile) (env : Env) (envD : EnvDisk)
    (hmiss : hasMissingRequired form = true)
    (hfile : multerPasses file = true) :
    (generatePipeline form file env).1.status = 400 ∧
    (generatePipeline form file env).2 = [] ∧
    (generatePipelineDisk form file envD).1.status = 400 ∧
    (generatePipelineDisk form file envD).2 =
      (match file with
       | none => []
       | some f => [Event.diskWrite (uploadedPhotoPath form f)]) := by
  obtain ⟨e, he⟩ := validateFormInput_error_of_missing form hmiss
  cases file with
  | none =>
      simp [generatePipeline, generatePipelineDisk, handlerBody, handlerBodyDisk, he]
  | some f =>
      have hacc : photoAccepted f = true := by simpa [multerPasses] using hfile
      rw [photoAccepted, Bool.and_eq_true] at hacc
      have hff : fileFilterOk f = true := hacc.1
      have hsize : f.size ≤ MAX_FILE_SIZE := by simpa using hacc.2
      simp [generatePipeline, generatePipelineDisk, handlerBody, handlerBodyDisk,
        he, hff, Nat.not_lt.2 hsize]

/-- Witness for C1 (amended): a request missing the name field with an
acceptable photo part. -/
theorem validation_rejects_before_side_effects_witness :
    (generatePipeline
        ⟨none, some "2020/1234567", some "Computer Science", some "SICT",
         some "Female", some "2024/2025"⟩
        (some ⟨"jane.png", "image/png", 1000⟩)
        ⟨true, true, true, true, true, .ok "p", .ok "f", .ok "b", true⟩).1.status = 400 ∧
    (generatePipeline
        ⟨none, some "2020/1234567", some "Computer Science", some "SICT",
         some "Female", some "2024/2025"⟩
        (some ⟨"jane.png", "image/png", 1000⟩)
        ⟨true, true, true, true, true, .ok "p", .ok "f", .ok "b", true⟩).2 = [] ∧
    (generatePipelineDisk
        ⟨none, some "2020/1234567", some "Computer Science", some "SICT",
         some "Female", some "2024/2025"⟩
        (some ⟨"jane.png", "image/png", 1000⟩)
        ⟨true, true, true, true, true, true⟩).1.status = 400 ∧
    (generatePipelineDisk
        ⟨none, some "2020/1234567", some "Computer Science", some "SICT",
         some "Female", some "2024/2025"⟩
        (some ⟨"jane.png", "image/png", 1000⟩)
        ⟨true, true, true, true, true, true⟩).2 =
      (match (some (⟨"jane.png", "image/png", 1000⟩ : PhotoFile) : Option PhotoFile) with
       | none => []
       | some f => [Event.diskWrite (uploadedPhotoPath
           ⟨none, some "2020/1234567", some "Computer Science", some "SICT",
            some "Female", some "2024/2025"⟩ f)]) :=
  validation_rejects_before_side_effects
    ⟨none, some "2020/1234567", some "Computer Science", some "SICT",
     some "Female", some "2024/2025"⟩
    (some ⟨"jane.png", "image/png", 1000⟩)
    ⟨true, true, true, true, true, .ok "p", .ok "f", .ok "b", true⟩
    ⟨true, true, true, true, true, true⟩
    (by decide) (by decide)

/-- C1 counterexample: on the disk variant a request with a missing
name field and a well-formed photo part is rejected with 400, yet a
file has already been written to disk by the upload middleware, so a
side effect does occur before validation passes. -/
theorem disk_write_despite_validation_reject :
    (generatePipelineDisk
        ⟨none, some "2020/1234567", some "Computer Science", some "SICT",
         some "Female", some "2024/2025"⟩
        (some ⟨"jane.png", "image/png", 1000⟩)
        ⟨true, true, true, true, true, true⟩).1.status = 400 ∧
    (generatePipelineDisk
        ⟨none, some "2020/1234567", some "Computer Science", some "SICT",
         some "Female", some "2024/2025"⟩
        (some ⟨"jane.png", "image/png", 1000⟩)
        ⟨true, true, true, true, true, true⟩).2 =
      [Event.diskWrite "static/uploads/2020_1234567_photo.png"] := by
  constructor
  · rfl
  · rfl

/-! ## Claim C4: absent template -/

/-- C4 (amended): when either background template is absent, both card
generators fail with a template-missing error and neither writes nor
uploads any card image; however the artifacts created before the
template check persist: the disk variant has already written the QR PNG
to the output folder (and the request-level pipelines have already
stored the uploaded photo). -/
theorem template_missing_no_card_output (f : CardFields) (photoUrl : String)
    (env : Env) (fD : CardFields) (photoPath : String) (envD : EnvDisk)
    (hq : env.qrOk = true)
    (ht : env.frontTemplateExists = false ∨ env.backTemplateExists = false)
    (hqD : envD.qrOk = true)
    (htD : envD.frontTemplateExists = false ∨ envD.backTemplateExists = false) :
    (∃ e, (generateIDCard f photoUrl env).1 = .error e) ∧
    (generateIDCard f photoUrl env).2 = [] ∧
    (∃ e, (generateIDCardDisk fD photoPath envD).1 = .error e) ∧
    (generateIDCardDisk fD photoPath envD).2 =
      [Event.diskWrite (qrFilePath (sanitizeReg fD.reg))] := by
  refine ⟨?_, ?_, ?_, ?_⟩
  · rcases ht with h | h
    · exact ⟨"Front template not found at: static/front_template.png",
        by simp [generateIDCard, hq, h]⟩
    · cases hf : env.frontTemplateExists with
      | false => exact ⟨"Front template not found at: static/front_template.png",
          by simp [generateIDCard, hq, hf]⟩
      | true => exact ⟨"Back template not found at: static/back_template.png",
          by simp [generateIDCard, hq, hf, h]⟩
  · rcases ht with h | h
    · simp [generateIDCard, hq, h]
    · cases hf : env.frontTemplateExists with
      | false => simp [generateIDCard, hq, hf]
      | true => simp [generateIDCard, hq, hf, h]
  · rcases htD with h | h
    · exact ⟨"Front template not found at: static/front_template.png",
        by simp [generateIDCardDisk, hqD, h]⟩
    · cases hf : envD.frontTemplateExists with
      | false => exact ⟨"Front template not found at: static/front_template.png",
          by simp [generateIDCardDisk, hqD, hf]⟩
      | true => exact ⟨"Back template not found at: static/back_template.png",
          by simp [generateIDCardDisk, hqD, hf, h]⟩
  · rcases htD with h | h
    · simp [generateIDCardDisk, hqD, h]
    · cases hf : envD.frontTemplateExists with
      | false => simp [generateIDCardDisk, hqD, hf]
      | true => simp [generateIDCardDisk, hqD, hf, h]

/-- Witness for C4 (amended) with the front template absent. -/
theorem template_missing_no_card_output_witness :
    (∃ e, (generateIDCard
        ⟨"Jane Doe", "2020/1234567", "Computer Science", "SICT", "Female", "2024/2025"⟩
        "https://photo" ⟨false, true, true, true, true, .ok "p", .ok "f", .ok "b", true⟩).1 =
        .error e) ∧
    (generateIDCard
        ⟨"Jane Doe", "2020/1234567", "Computer Science", "SICT", "Female", "2024/2025"⟩
        "https://photo" ⟨false, true, true, true, true, .ok "p", .ok "f", .ok "b", true⟩).2 = [] ∧
    (∃ e, (generateIDCardDisk
        ⟨"Jane Doe", "2020/1234567", "Computer Science", "SICT", "Female", "2024/2025"⟩
        "static/uploads/p.png" ⟨false, true, true, true, true, true⟩).1 = .error e) ∧
    (generateIDCardDisk
        ⟨"Jane Doe", "2020/1234567", "Computer Science", "SICT", "Female", "2024/2025"⟩
        "static/uploads/p.png" ⟨false, true, true, true, true, true⟩).2 =
      [Event.diskWrite (qrFilePath (sanitizeReg
        (⟨"Jane Doe", "2020/1234567", "Computer Science", "SICT", "Female", "2024/2025"⟩ :
          CardFields).reg))] :=
  template_missing_no_card_output
    ⟨"Jane Doe", "2020/1234567", "Computer Science", "SICT", "Female", "2024/2025"⟩
    "https://photo" ⟨false, true, true, true, true, .ok "p", .ok "f", .ok "b", true⟩
    ⟨"Jane Doe", "2020/1234567", "Computer Science", "SICT", "Female", "2024/2025"⟩
    "static/uploads/p.png" ⟨false, true, true, true, true, true⟩
    rfl (Or.inl rfl) rfl (Or.inl rfl)

/-- C4 counterexample: with the front template absent, the whole
request fails (500) but artifacts of the failed request persist — the
Cloudinary pipeline has already uploaded the photo to the storage
provider, and the disk pipeline has already written the photo and the
QR PNG to disk. -/
theorem artifacts_persist_when_template_missing :
    (generatePipeline
        ⟨some "Jane Doe", some "2020/1234567", some "Computer Science", some "SICT",
         some "Female", some "2024/2025"⟩
        (some ⟨"jane.png", "image/png", 1000⟩)
        ⟨false, true, true, true, true, .ok "https://photo", .ok "f", .ok "b", true⟩).1.status = 500 ∧
    Event.uploadCall uploadsFolder true ∈
      (generatePipeline
        ⟨some "Jane Doe", some "2020/1234567", some "Computer Science", some "SICT",
         some "Female", some "2024/2025"⟩
        (some ⟨"jane.png", "image/png", 1000⟩)
        ⟨false, true, true, true, true, .ok "https://photo", .ok "f", .ok "b", true⟩).2 ∧
    (generatePipelineDisk
        ⟨some "Jane Doe", some "2020/1234567", some "Computer Science", some "SICT",
         some "Female", some "2024/2025"⟩
        (some ⟨"jane.png", "image/png", 1000⟩)
        ⟨false, true, true, true, true, true⟩).1.status = 500 ∧
    Event.diskWrite "static/uploads/2020_1234567_photo.png" ∈
      (generatePipelineDisk
        ⟨some "Jane Doe", some "2020/1234567", some "Computer Science", some "SICT",
         some "Female", some "2024/2025"⟩
        (some ⟨"jane.png", "image/png", 1000⟩)
        ⟨false, true, true, true, true, true⟩).2 ∧
    Event.diskWrite "static/id_cards/futo_2020_1234567_qr.png" ∈
      (generatePipelineDisk
        ⟨some "Jane Doe", some "2020/1234567", some "Computer Science", some "SICT",
         some "Female", some "2024/2025"⟩
        (some ⟨"jane.png", "image/png", 1000⟩)
        ⟨false, true, true, true, true, true⟩).2 := by
  refine ⟨rfl, ?_, rfl, ?_, ?_⟩ <;> decide

/-! ## Claim C5: sequential uploads, no rollback -/

/-- Number of storage-provider calls aimed at a given target in an
event trace. -/
def countUploadCalls (evs : List Event) (tgt : String) : ℕ :=
  (evs.filter (fun ev =>
    match ev with
    | .uploadCall t _ => t == tgt
    | _ => false)).length

theorem front_target_ne_back_target (s : String) :
    frontUploadTarget s ≠ backUploadTarget s := by
  intro h
  have hlen := congrArg String.length h
  simp only [frontUploadTarget, backUploadTarget, frontPublicId, backPublicId,
    String.length_append] at hlen
  have e1 : ("_front" : String).length = 6 := rfl
  have e2 : ("_back" : String).length = 5 := rfl
  omega

/-- C5: when the front upload has succeeded and the back card's render
or upload subsequently fails, the caller receives only an error, yet
the trace still contains the successful (persisted) front upload —
there is no rollback event and no retry: the front target is called
exactly once and the back target at most once, with the front call
preceding any back activity. -/
theorem front_upload_not_rolled_back (f : CardFields) (photoUrl u : String)
    (env : Env)
    (hq : env.qrOk = true) (hft : env.frontTemplateExists = true)
    (hbt : env.backTemplateExists = true) (hfr : env.frontRenderOk = true)
    (hfu : env.frontUpload = .ok u)
    (hfail : env.backRenderOk = false ∨ ∃ e, env.backUpload = .error e) :
    (∃ e, (generateIDCard f photoUrl env).1 = .error e) ∧
    (generateIDCard f photoUrl env).2[1]? =
      some (Event.uploadCall (frontUploadTarget (sanitizeReg f.reg)) true) ∧
    countUploadCalls (generateIDCard f photoUrl env).2
      (frontUploadTarget (sanitizeReg f.reg)) = 1 ∧
    countUploadCalls (generateIDCard f photoUrl env).2
      (backUploadTarget (sanitizeReg f.reg)) ≤ 1 := by
  have hne := front_target_ne_back_target (sanitizeReg f.reg)
  have hbf : (frontUploadTarget (sanitizeReg f.reg) ==
      backUploadTarget (sanitizeReg f.reg)) = false := by
    simp [hne]
  have hfb : (backUploadTarget (sanitizeReg f.reg) ==
      frontUploadTarget (sanitizeReg f.reg)) = false := by
    simp [Ne.symm hne]
  cases hbr : env.backRenderOk with
  | false =>
      refine ⟨⟨"Back render failed", ?_⟩, ?_, ?_, ?_⟩ <;>
        simp [generateIDCard, countUploadCalls, hq, hft, hbt, hfr, hfu, hbr,
          exceptIsOk, hbf, hfb]
  | true =>
      rcases hfail with h | ⟨e, hbu⟩
      · exact absurd hbr (by simp [h])
      · refine ⟨⟨e, ?_⟩, ?_, ?_, ?_⟩ <;>
          simp [generateIDCard, countUploadCalls, hq, hft, hbt, hfr, hfu, hbr,
            hbu, exceptIsOk, hbf, hfb]

/-- Witness for C5: back upload rejected after a successful front
upload. -/
theorem front_upload_not_rolled_back_witness :
    (∃ e, (generateIDCard
        ⟨"Jane Doe", "2020/1234567", "Computer Science", "SICT", "Female", "2024/2025"⟩
        "https://photo"
        ⟨true, true, true, true, true, .ok "p", .ok "https://front", .error "network", true⟩).1 =
        .error e) ∧
    (generateIDCard
        ⟨"Jane Doe", "2020/1234567", "Computer Science", "SICT", "Female", "2024/2025"⟩
        "https://photo"
        ⟨true, true, true, true, true, .ok "p", .ok "https://front", .error "network", true⟩).2[1]? =
      some (Event.uploadCall (frontUploadTarget (sanitizeReg
        (⟨"Jane Doe", "2020/1234567", "Computer Science", "SICT", "Female", "2024/2025"⟩ :
          CardFields).reg)) true) ∧
    countUploadCalls (generateIDCard
        ⟨"Jane Doe", "2020/1234567", "Computer Science", "SICT", "Female", "2024/2025"⟩
        "https://photo"
        ⟨true, true, true, true, true, .ok "p", .ok "https://front", .error "network", true⟩).2
      (frontUploadTarget (sanitizeReg
        (⟨"Jane Doe", "2020/1234567", "Computer Science", "SICT", "Female", "2024/2025"⟩ :
          CardFields).reg)) = 1 ∧
    countUploadCalls (generateIDCard
        ⟨"Jane Doe", "2020/1234567", "Computer Science", "SICT", "Female", "2024/2025"⟩
        "https://photo"
        ⟨true, true, true, true, true, .ok "p", .ok "https://front", .error "network", true⟩).2
      (backUploadTarget (sanitizeReg
        (⟨"Jane Doe", "2020/1234567", "Computer Science", "SICT", "Female", "2024/2025"⟩ :
          CardFields).reg)) ≤ 1 :=
  front_upload_not_rolled_back
    ⟨"Jane Doe", "2020/1234567", "Computer Science", "SICT", "Female", "2024/2025"⟩
    "https://photo" "https://front"
    ⟨true, true, true, true, true, .ok "p", .ok "https://front", .error "network", true⟩
    rfl rfl rfl rfl rfl (Or.inr ⟨"network", rfl⟩)

/-! ## Claim C6: two non-empty full-size buffers for valid requests -/

/-- C6: when all external steps succeed, `generateIDCard` returns
exactly two PNG buffers, front and back, each rendered on a canvas of
exactly 1012 by 638 pixels and each carrying at least one drawing
operation (non-empty). -/
theorem generateIDCard_two_buffers (f : CardFields) (photoUrl fu bu : String)
    (env : Env)
    (hq : env.qrOk = true) (hft : env.frontTemplateExists = true)
    (hbt : env.backTemplateExists = true) (hfr : env.frontRenderOk = true)
    (hbr : env.backRenderOk = true)
    (hfu : env.frontUpload = .ok fu) (hbu : env.backUpload = .ok bu) :
    ∃ out, (generateIDCard f photoUrl env).1 = .ok out ∧
      out.frontBuffer.canvas.width = 1012 ∧ out.frontBuffer.canvas.height = 638 ∧
      out.backBuffer.canvas.width = 1012 ∧ out.backBuffer.canvas.height = 638 ∧
      out.frontBuffer.canvas.ops ≠ [] ∧ out.backBuffer.canvas.ops ≠ [] := by
  have hres : (generateIDCard f photoUrl env).1 =
      .ok ⟨⟨frontCardCanvas photoUrl⟩, ⟨backCardCanvas f env.fontLoaded⟩, fu, bu⟩ := by
    simp [generateIDCard, hq, hft, hbt, hfr, hbr, hfu, hbu]
  refine ⟨_, hres, rfl, rfl, rfl, rfl, ?_, ?_⟩
  · simp [frontCardCanvas]
  · simp [backCardCanvas]

/-- Witness for C6 at a concrete valid request. -/
theorem generateIDCard_two_buffers_witness :
    ∃ out, (generateIDCard
        ⟨"Jane Doe", "2020/1234567", "Computer Science", "SICT", "Female", "2024/2025"⟩
        "https://photo"
        ⟨true, true, true, true, true, .ok "p", .ok "https://front", .ok "https://back", true⟩).1 =
        .ok out ∧
      out.frontBuffer.canvas.width = 1012 ∧ out.frontBuffer.canvas.height = 638 ∧
      out.backBuffer.canvas.width = 1012 ∧ out.backBuffer.canvas.height = 638 ∧
      out.frontBuffer.canvas.ops ≠ [] ∧ out.backBuffer.canvas.ops ≠ [] :=
  generateIDCard_two_buffers
    ⟨"Jane Doe", "2020/1234567", "Computer Science", "SICT", "Female", "2024/2025"⟩
    "https://photo" "https://front" "https://back"
    ⟨true, true, true, true, true, .ok "p", .ok "https://front", .ok "https://back", true⟩
    rfl rfl rfl rfl rfl rfl rfl

/-! ## Claim C8: the photo allow-list is a substring test -/

theorem listHasPrefix_iff (pat l : List Char) :
    listHasPrefix pat l = true ↔ pat <+: l := by
  induction pat generalizing l with
  | nil => simp [listHasPrefix]
  | cons p ps ih =>
      cases l with
      | nil => simp [listHasPrefix]
      | cons c cs => simp [listHasPrefix, ih, List.cons_prefix_cons]

theorem listHasInfix_iff (pat l : List Char) :
    listHasInfix pat l = true ↔ pat <:+: l := by
  induction l with
  | nil =>
      simp [listHasInfix, List.isEmpty_iff]
  | cons c cs ih =>
      rw [listHasInfix, Bool.or_eq_true, listHasPrefix_iff, ih, List.infix_cons_iff]

theorem allowedTypesTest_iff (s : String) :
    allowedTypesTest s = true ↔
      ∃ t ∈ (["jpeg", "jpg", "png", "gif"] : List String), t.data <:+: s.data := by
  rw [allowedTypesTest]
  simp only [Bool.or_eq_true, listHasInfix_iff]
  constructor
  · rintro (((h | h) | h) | h)
    · exact ⟨"jpeg", by simp, h⟩
    · exact ⟨"jpg", by simp, h⟩
    · exact ⟨"png", by simp, h⟩
    · exact ⟨"gif", by simp, h⟩
  · rintro ⟨t, ht, h⟩
    simp only [List.mem_cons, List.not_mem_nil, or_false] at ht
    rcases ht with rfl | rfl | rfl | rfl
    · exact Or.inl (Or.inl (Or.inl h))
    · exact Or.inl (Or.inl (Or.inr h))
    · exact Or.inl (Or.inr h)
    · exact Or.inr h

/-- C8 (amended): the multer middleware accepts a photo exactly when
its lowercased extension contains one of jpeg, jpg, png, gif as a
substring, its declared MIME type contains one of them as a substring,
and its size is at most 16MB — the allow-list regular expression is
unanchored, so membership in the allow-list is not required; an
extension like bmp, containing no token, is still always rejected. -/
theorem photoAccepted_substring_spec (f : PhotoFile) :
    (photoAccepted f = true ↔
      ((∃ t ∈ (["jpeg", "jpg", "png", "gif"] : List String),
          t.data <:+: (jsToLowerCase (extname f.originalname)).data) ∧
       (∃ t ∈ (["jpeg", "jpg", "png", "gif"] : List String),
          t.data <:+: f.mimetype.data) ∧
       f.size ≤ MAX_FILE_SIZE)) ∧
    (∀ mt : String, ∀ n : ℕ, photoAccepted ⟨"photo.bmp", mt, n⟩ = false) := by
  constructor
  · rw [photoAccepted, fileFilterOk, Bool.and_eq_true, Bool.and_eq_true,
      allowedTypesTest_iff, allowedTypesTest_iff]
    simp [and_assoc]
  · intro mt n
    have hext : allowedTypesTest (jsToLowerCase (extname "photo.bmp")) = false := by
      decide
    simp [photoAccepted, fileFilterOk, hext]

/-- C8 counterexample: a photo whose extension is not in the allow-list
is accepted (the unanchored regular expression matches the png found
inside fakepng), refuting membership in the set jpeg, jpg, png, gif as
a necessary condition. -/
theorem fakepng_accepted :
    photoAccepted ⟨"photo.fakepng", "image/png", 1000⟩ = true ∧
    jsToLowerCase (extname "photo.fakepng") = ".fakepng" ∧
    (".fakepng" : String) ∉ (["jpeg", "jpg", "png", "gif"] : List String) ∧
    ("fakepng" : String) ∉ (["jpeg", "jpg", "png", "gif"] : List String) := by
  refine ⟨?_, ?_, ?_, ?_⟩ <;> decide

end IDSmart
